import Mathlib

/-! Shallow embedding of the moving-load beam-analysis engine
(`src/beam_analysis/beam.py`) over exact rational arithmetic.
Python floats become `ℚ`; the float literal `1e-9` used to probe
one-sided ordinate values becomes the rational `1 / 10^9`;
fields of the result record that may hold Python `None` become
`Option ℚ`; constructors that may raise `ValueError` become
`Except String`.
-/

namespace BeamAnalysis

/-- Mirrors class `Beam` (beam.py line 30): span length and support type. -/
structure Beam where
  length : ℚ
  type : String
  deriving DecidableEq

/-- Mirrors `Beam.__init__` (beam.py lines 32-34): raises on `length <= 0`. -/
def Beam.init (length : ℚ) (beam_type : String) : Except String Beam :=
  if length ≤ 0 then .error "Beam length must be positive."
  else .ok ⟨length, beam_type⟩

/-- Mirrors class `PointLoadSystem` (beam.py line 43). -/
structure PointLoadSystem where
  w1 : ℚ
  w2 : ℚ
  x : ℚ
  deriving DecidableEq

/-- Mirrors `PointLoadSystem.__init__` (beam.py lines 46-49). -/
def PointLoadSystem.init (w1 w2 x : ℚ) : Except String PointLoadSystem :=
  if w1 < 0 ∨ w2 < 0 then .error "Load values cannot be negative."
  else if x < 0 then .error "Distance between loads cannot be negative."
  else .ok ⟨w1, w2, x⟩

/-- Mirrors class `UDLLoadSystem` (beam.py line 60). -/
structure UDLLoadSystem where
  w : ℚ
  length : ℚ
  deriving DecidableEq

/-- Mirrors `UDLLoadSystem.__init__` (beam.py lines 63-66). -/
def UDLLoadSystem.init (w length_udl : ℚ) : Except String UDLLoadSystem :=
  if w < 0 then .error "UDL intensity (w) cannot be negative."
  else if length_udl ≤ 0 then .error "UDL length must be positive."
  else .ok ⟨w, length_udl⟩

/-- The closed set of load-system variants dispatched by `analyze_beam`. -/
inductive LoadSystem where
  | point (p : PointLoadSystem)
  | udl (u : UDLLoadSystem)
  deriving DecidableEq

/-- Mirrors the `AnalysisResults` dataclass (beam.py lines 73-86) with its
Python field defaults.  `BM_01`, `SF_01`, `max_pos_M_mid`, `max_pos_SF_mid`
and `max_neg_SF_mid` may hold Python `None`, hence `Option ℚ`. -/
structure AnalysisResults where
  load_type : String := "unknown"
  Ra_max : ℚ := 0
  Rb_max : ℚ := 0
  SF_max : ℚ := 0
  y_SF_max : ℚ := 0
  BM_01 : Option ℚ := some 0
  SF_01 : Option ℚ := some 0
  max_pos_M_mid : Option ℚ := some 0
  max_pos_SF_mid : Option ℚ := some 0
  max_neg_SF_mid : Option ℚ := some 0
  BM_max : ℚ := 0
  z_BM_max : ℚ := 0
  error : Option String := none
  deriving DecidableEq

/-- Mirrors `_get_ra_ild_ordinate` (beam.py line 91). -/
def _get_ra_ild_ordinate (pos L : ℚ) : ℚ :=
  if 0 ≤ pos ∧ pos ≤ L ∧ 0 < L then (L - pos) / L else 0

/-- Mirrors `_get_rb_ild_ordinate` (beam.py line 92). -/
def _get_rb_ild_ordinate (pos L : ℚ) : ℚ :=
  if 0 ≤ pos ∧ pos ≤ L ∧ 0 < L then pos / L else 0

/-- Mirrors `_get_sf_mid_ild_ordinate` (beam.py lines 93-97); the local
`mid = L / 2.0` is inlined. -/
def _get_sf_mid_ild_ordinate (pos L : ℚ) : ℚ :=
  if 0 ≤ pos ∧ pos < L / 2 ∧ 0 < L then -pos / L
  else if L / 2 ≤ pos ∧ pos ≤ L ∧ 0 < L then (L - pos) / L
  else 0

/-- Mirrors `_get_bm_mid_ild_ordinate` (beam.py lines 98-102); the local
`mid = L / 2.0` is inlined. -/
def _get_bm_mid_ild_ordinate (pos L : ℚ) : ℚ :=
  if 0 ≤ pos ∧ pos ≤ L / 2 ∧ 0 < L then pos * (L / 2) / L
  else if L / 2 < pos ∧ pos ≤ L ∧ 0 < L then (L - pos) * (L / 2) / L
  else 0

/-- The Python code dispatches `_calculate_ild_area` on the *identity* of the
ordinate function passed in; we mirror that with a closed tag. -/
inductive IldFunc where
  | ra
  | rb
  | sfMid
  | bmMid
  deriving DecidableEq

/-- The ordinate function denoted by each tag. -/
def IldFunc.ordinate : IldFunc → ℚ → ℚ → ℚ
  | .ra => _get_ra_ild_ordinate
  | .rb => _get_rb_ild_ordinate
  | .sfMid => _get_sf_mid_ild_ordinate
  | .bmMid => _get_bm_mid_ild_ordinate

/-- The float literal `1e-9` used in `_calculate_ild_area` to sample the
ordinate just inside each side of the midspan discontinuity. -/
def eps : ℚ := 1 / 1000000000

/-- Mirrors `_calculate_ild_area` (beam.py lines 103-120): trapezoidal area
of an influence-line ordinate over `[start, end]` clipped to `[0, L]`, with
the split at `mid = L/2` for the midspan shear and moment ordinates. -/
def _calculate_ild_area (f : IldFunc) (start end' L : ℚ) : ℚ :=
  if start ≥ end' ∨ L ≤ 0 then 0
  else
    let s := max 0 start
    let e := min L end'
    if s ≥ e then 0
    else
      let mid := L / 2
      match f with
      | .sfMid =>
          (if s < mid then
            let eff_end_l := min e mid
            (1/2 : ℚ) * (f.ordinate s L + f.ordinate (eff_end_l - eps) L) * (eff_end_l - s)
          else 0)
          +
          (if e > mid then
            let eff_start_r := max s mid
            (1/2 : ℚ) * (f.ordinate (eff_start_r + eps) L + f.ordinate e L) * (e - eff_start_r)
          else 0)
      | .bmMid =>
          (if s ≤ mid then
            let eff_end_l := min e mid
            (1/2 : ℚ) * (f.ordinate s L + f.ordinate eff_end_l L) * (eff_end_l - s)
          else 0)
          +
          (if e > mid then
            let eff_start_r := max s mid
            (1/2 : ℚ) * (f.ordinate eff_start_r L + f.ordinate e L) * (e - eff_start_r)
          else 0)
      | _ => (1/2 : ℚ) * (f.ordinate s L + f.ordinate e L) * (e - s)

/-- Mirrors `_analyze_simply_supported_point` (beam.py lines 134-161).
The Python code mutates a result record field by field; we assemble the
same final record.  `BM_max`/`z_BM_max` are computed as a pair `bm`. -/
def _analyze_simply_supported_point (beam : Beam) (loads : PointLoadSystem) :
    AnalysisResults :=
  let L := beam.length
  let W1 := loads.w1
  let W2 := loads.w2
  let x := loads.x
  let W_total := W1 + W2
  if W_total = 0 then { load_type := "point_two" }
  else
    let Ra_max := W1 + W2 * max 0 (L - x) / L
    let Rb_max := (W1 * max 0 (L - x) + W2 * L) / L
    let SF_max := max Ra_max Rb_max
    let y_SF_max := if Ra_max ≥ Rb_max then (0 : ℚ) else L
    let BM_01 := if x ≥ L then (0 : ℚ) else (W2 * x / L) * (L - x)
    let pos_W1_sf01 := L / 2
    let pos_W2_sf01 := pos_W1_sf01 + x
    let SF_01 := (W1 * max 0 (L - pos_W1_sf01) + W2 * max 0 (L - pos_W2_sf01)) / L
    let bm : ℚ × ℚ :=
      if W1 = 0 then (W2 * L / 4, L / 2)
      else if W2 = 0 then (W1 * L / 4, L / 2)
      else if x = 0 then (W_total * L / 4, L / 2)
      else if x ≥ L then (max W1 W2 * L / 4, L / 2)
      else
        let R := W_total
        let a := W2 * x / R
        let z1 := L / 2 - a / 2
        let M1 : ℚ :=
          if 0 ≤ z1 ∧ z1 ≤ L then
            ((W1 * max 0 (L - z1) + W2 * max 0 (L - (z1 + x))) / L) * z1
          else -1
        let z2 := L / 2 + (x - a) / 2
        let M2 : ℚ :=
          if 0 ≤ z2 ∧ z2 ≤ L then
            let p1_c2 := z2 - x
            let Ra2 := (W1 * max 0 (L - p1_c2) + W2 * max 0 (L - z2)) / L
            let arm_w1 := if p1_c2 ≥ 0 then x else (0 : ℚ)
            Ra2 * z2 - W1 * arm_w1
          else -1
        if M1 ≥ 0 ∧ M1 ≥ M2 then (M1, z1)
        else if M2 ≥ 0 then (M2, z2)
        else (max W1 W2 * L / 4, L / 2)
    { load_type := "point_two"
      Ra_max := Ra_max
      Rb_max := Rb_max
      SF_max := SF_max
      y_SF_max := y_SF_max
      BM_01 := some BM_01
      SF_01 := some SF_01
      max_pos_M_mid := none
      max_pos_SF_mid := none
      max_neg_SF_mid := none
      BM_max := bm.1
      z_BM_max := bm.2 }

/-- Mirrors `_analyze_simply_supported_udl` (beam.py lines 163-204).
`BM_01`/`SF_01` are set to `none` before the `w = 0` early return, matching
beam.py lines 169-173. -/
def _analyze_simply_supported_udl (beam : Beam) (loads : UDLLoadSystem) :
    AnalysisResults :=
  let L := beam.length
  let w := loads.w
  let L_udl := loads.length
  if w = 0 then { load_type := "udl", BM_01 := none, SF_01 := none }
  else
    let end_ra := min L_udl L
    let Ra_max := w * _calculate_ild_area .ra 0 end_ra L
    let start_rb := max 0 (L - L_udl)
    let Rb_max := w * _calculate_ild_area .rb start_rb L L
    let SF_max := max Ra_max Rb_max
    let y_SF_max := if Ra_max ≥ Rb_max then (0 : ℚ) else L
    let mid := L / 2
    let start_sf_pos := mid
    let end_sf_pos := min L (mid + L_udl)
    let area_sf_pos :=
      if start_sf_pos < end_sf_pos then
        _calculate_ild_area .sfMid start_sf_pos end_sf_pos L
      else 0
    let end_sf_neg := mid
    let start_sf_neg := max 0 (mid - L_udl)
    let area_sf_neg :=
      if start_sf_neg < end_sf_neg then
        _calculate_ild_area .sfMid start_sf_neg end_sf_neg L
      else 0
    let start_m_mid := if L_udl ≥ L then 0 else max 0 (mid - L_udl / 2)
    let end_m_mid := if L_udl ≥ L then L else min L (mid + L_udl / 2)
    let area_m_mid :=
      if start_m_mid < end_m_mid then
        _calculate_ild_area .bmMid start_m_mid end_m_mid L
      else 0
    let bm : ℚ × ℚ :=
      if L_udl ≥ L then (w * L ^ 2 / 8, L / 2)
      else ((w * L_udl / 8) * (2 * L - L_udl), L / 2)
    { load_type := "udl"
      Ra_max := Ra_max
      Rb_max := Rb_max
      SF_max := SF_max
      y_SF_max := y_SF_max
      BM_01 := none
      SF_01 := none
      max_pos_M_mid := some (w * area_m_mid)
      max_pos_SF_mid := some (w * area_sf_pos)
      max_neg_SF_mid := some (w * area_sf_neg)
      BM_max := bm.1
      z_BM_max := bm.2 }

/-- Mirrors `analyze_beam` (beam.py lines 126-132).  The load-type dispatch
is total over the closed `LoadSystem` variant set; the beam-type dispatch
keeps the unimplemented-beam error branch. -/
def analyze_beam (beam : Beam) (load_system : LoadSystem) : AnalysisResults :=
  if beam.type = "simply_supported" then
    match load_system with
    | .point p => _analyze_simply_supported_point beam p
    | .udl u => _analyze_simply_supported_udl beam u
  else
    { load_type := "unknown"
      error := some ("Analysis for beam type \x27" ++ beam.type ++ "\x27 not implemented.") }

/-- Returns `true` exactly when an `Except`-valued constructor rejected its
input. -/
def isErr {α : Type} : Except String α → Bool
  | .error _ => true
  | .ok _ => false

/-!  Theorems settling the claims. -/

/-- Claim C3: for a beam of length L=10 and a two-point load with W1=50,
W2=30, x=2.5, analyze returns Ra_max = 72.5, Rb_max = 67.5, SF_max = 72.5,
y_SF_max = 0, BM_01 = 56.25, SF_01 = 32.5, and via the general-case
resultant branch (R = 80, a = 0.9375) BM_max = 164.2578125 at
z_BM_max = 4.53125.  All values exact in ℚ: 164.2578125 = 1642578125/10^7
and 4.53125 = 453125/10^5. -/
theorem c3_point_default_scenario :
    (analyze_beam ⟨10, "simply_supported"⟩ (.point ⟨50, 30, 5/2⟩)).Ra_max = 145/2 ∧
    (analyze_beam ⟨10, "simply_supported"⟩ (.point ⟨50, 30, 5/2⟩)).Rb_max = 135/2 ∧
    (analyze_beam ⟨10, "simply_supported"⟩ (.point ⟨50, 30, 5/2⟩)).SF_max = 145/2 ∧
    (analyze_beam ⟨10, "simply_supported"⟩ (.point ⟨50, 30, 5/2⟩)).y_SF_max = 0 ∧
    (analyze_beam ⟨10, "simply_supported"⟩ (.point ⟨50, 30, 5/2⟩)).BM_01 = some (225/4) ∧
    (analyze_beam ⟨10, "simply_supported"⟩ (.point ⟨50, 30, 5/2⟩)).SF_01 = some (65/2) ∧
    (analyze_beam ⟨10, "simply_supported"⟩ (.point ⟨50, 30, 5/2⟩)).BM_max
      = 1642578125/10000000 ∧
    (analyze_beam ⟨10, "simply_supported"⟩ (.point ⟨50, 30, 5/2⟩)).z_BM_max
      = 453125/100000 := by
  norm_num [analyze_beam, _analyze_simply_supported_point, max_def, min_def]

/-- Claim C2, counterexample: for a two-point load of zero total magnitude
(W1 = W2 = 0, a valid construction), the point branch returns early with the
dataclass defaults, so the UDL-only field max_pos_M_mid holds the numeric
value 0 instead of the `none` marker, while no error is reported. -/
theorem c2_counterexample :
    (analyze_beam ⟨1, "simply_supported"⟩ (.point ⟨0, 0, 0⟩)).error = none ∧
    (analyze_beam ⟨1, "simply_supported"⟩ (.point ⟨0, 0, 0⟩)).max_pos_M_mid = some 0 ∧
    ¬ (analyze_beam ⟨1, "simply_supported"⟩ (.point ⟨0, 0, 0⟩)).max_pos_M_mid = none := by
  norm_num [analyze_beam, _analyze_simply_supported_point]
  exact Option.some_ne_none 0

/-- Claim C2 as amended: the inapplicable fields carry `none` for every
two-point load of positive total magnitude (max_pos_M_mid, max_pos_SF_mid,
max_neg_SF_mid) and for every UDL including zero intensity (BM_01, SF_01);
the zero-total two-point load instead returns the all-zero default record,
whose UDL-only fields hold 0. -/
theorem c2_inapplicable_fields_none (L w1 w2 x wu lu : ℚ)
    (htot : 0 < w1 + w2) :
    ((analyze_beam ⟨L, "simply_supported"⟩ (.point ⟨w1, w2, x⟩)).max_pos_M_mid = none ∧
     (analyze_beam ⟨L, "simply_supported"⟩ (.point ⟨w1, w2, x⟩)).max_pos_SF_mid = none ∧
     (analyze_beam ⟨L, "simply_supported"⟩ (.point ⟨w1, w2, x⟩)).max_neg_SF_mid = none) ∧
    ((analyze_beam ⟨L, "simply_supported"⟩ (.udl ⟨wu, lu⟩)).BM_01 = none ∧
     (analyze_beam ⟨L, "simply_supported"⟩ (.udl ⟨wu, lu⟩)).SF_01 = none) := by
  have hne : ¬ (w1 + w2 = 0) := by intro h; rw [h] at htot; exact lt_irrefl 0 htot
  unfold analyze_beam _analyze_simply_supported_point _analyze_simply_supported_udl
  by_cases hw : wu = 0 <;> simp [hne, hw]

/-- Instantiation witness for `c2_inapplicable_fields_none`. -/
theorem c2_inapplicable_fields_none_witness :
    ((analyze_beam ⟨10, "simply_supported"⟩ (.point ⟨50, 30, 5/2⟩)).max_pos_M_mid = none ∧
     (analyze_beam ⟨10, "simply_supported"⟩ (.point ⟨50, 30, 5/2⟩)).max_pos_SF_mid = none ∧
     (analyze_beam ⟨10, "simply_supported"⟩ (.point ⟨50, 30, 5/2⟩)).max_neg_SF_mid = none) ∧
    ((analyze_beam ⟨10, "simply_supported"⟩ (.udl ⟨8, 4⟩)).BM_01 = none ∧
     (analyze_beam ⟨10, "simply_supported"⟩ (.udl ⟨8, 4⟩)).SF_01 = none) :=
  c2_inapplicable_fields_none 10 50 30 (5/2) 8 4 (by norm_num)

/-- Claim C8: construction fails exactly on non-positive beam length,
negative point-load magnitude, negative separation distance, negative UDL
intensity, or non-positive UDL patch length; no other input is rejected.
The embedded constructors are pure `Except`-valued functions, so a failed
construction has no side effect. -/
theorem c8_validation_iff (L w1 w2 x wu lu : ℚ) (t : String) :
    (isErr (Beam.init L t) = true ↔ L ≤ 0) ∧
    (isErr (PointLoadSystem.init w1 w2 x) = true ↔ (w1 < 0 ∨ w2 < 0 ∨ x < 0)) ∧
    (isErr (UDLLoadSystem.init wu lu) = true ↔ (wu < 0 ∨ lu ≤ 0)) := by
  unfold Beam.init PointLoadSystem.init UDLLoadSystem.init
  refine ⟨?_, ?_, ?_⟩ <;> split_ifs <;> simp_all [isErr]
  tauto

/-- Instantiation witness for `c8_validation_iff`. -/
theorem c8_validation_iff_witness :
    isErr (Beam.init 0 "simply_supported") = true ∧
    isErr (PointLoadSystem.init 1 2 (-1)) = true ∧
    isErr (UDLLoadSystem.init 2 3) = false :=
  ⟨(c8_validation_iff 0 1 2 (-1) 2 3 "simply_supported").1.mpr (le_refl 0),
   (c8_validation_iff 0 1 2 (-1) 2 3 "simply_supported").2.1.mpr
     (Or.inr (Or.inr (by norm_num))),
   by
    have h := (c8_validation_iff 0 1 2 (-1) 2 3 "simply_supported").2.2
    rcases hb : isErr (UDLLoadSystem.init 2 3) with _ | _
    · rfl
    · rcases h.mp hb with h1 | h2
      · exact absurd h1 (by norm_num)
      · exact absurd h2 (by norm_num)⟩

/-- Claim C9, counterexample: the validation error for a non-positive beam
length carries the literal text "Beam length must be positive.", not the
claimed "Beam length (L) must be positive.". -/
theorem c9_counterexample :
    Beam.init 0 "simply_supported" = .error "Beam length must be positive." ∧
    ¬ Beam.init 0 "simply_supported" = .error "Beam length (L) must be positive." := by
  unfold Beam.init
  norm_num
  decide

/-- Claim C9 as amended: the non-positive-length validation error carries
exactly the literal text "Beam length must be positive." (without "(L)"),
and every validation error raised for a negative load magnitude or a
negative distance contains the substring "cannot be negative". -/
theorem c9_error_messages (L w1 w2 x wu lu : ℚ) (t : String) :
    (L ≤ 0 → Beam.init L t = .error "Beam length must be positive.") ∧
    ((w1 < 0 ∨ w2 < 0 ∨ x < 0) →
      ∃ m, PointLoadSystem.init w1 w2 x = .error m ∧
        ∃ a b, m = a ++ "cannot be negative" ++ b) ∧
    (wu < 0 →
      ∃ m, UDLLoadSystem.init wu lu = .error m ∧
        ∃ a b, m = a ++ "cannot be negative" ++ b) := by
  refine ⟨?_, ?_, ?_⟩
  · intro h; unfold Beam.init; rw [if_pos h]
  · intro h
    unfold PointLoadSystem.init
    by_cases h12 : w1 < 0 ∨ w2 < 0
    · rw [if_pos h12]
      exact ⟨_, rfl, "Load values ", ".", by decide⟩
    · have hx : x < 0 := by tauto
      rw [if_neg h12, if_pos hx]
      exact ⟨_, rfl, "Distance between loads ", ".", by decide⟩
  · intro h
    unfold UDLLoadSystem.init
    rw [if_pos h]
    exact ⟨_, rfl, "UDL intensity (w) ", ".", by decide⟩

/-- Instantiation witness for `c9_error_messages`. -/
theorem c9_error_messages_witness :
    (Beam.init (-1) "simply_supported" = .error "Beam length must be positive.") ∧
    (∃ m, PointLoadSystem.init (-2) 3 1 = .error m ∧
      ∃ a b, m = a ++ "cannot be negative" ++ b) ∧
    (∃ m, UDLLoadSystem.init (-3) 5 = .error m ∧
      ∃ a b, m = a ++ "cannot be negative" ++ b) := by
  have h := c9_error_messages (-1) (-2) 3 1 (-3) 5 "simply_supported"
  exact ⟨h.1 (by norm_num), h.2.1 (Or.inl (by norm_num)), h.2.2 (by norm_num)⟩

/-- Claim C7, counterexample: for start = 0, end = 5, L = 10 the claim
predicts the left trapezoid formed with the one-sided value -1/2 at
min(end, L/2) = 5 (the right trapezoid over [5,5] being empty), giving
exactly (1/2)·(0 + (-1/2))·5 = -5/4; the code instead samples the ordinate
at 5 - 1e-9 and returns -5/4 + 1/4000000000. -/
theorem c7_counterexample :
    _calculate_ild_area .sfMid 0 5 10 = -5/4 + 1/4000000000 ∧
    ¬ _calculate_ild_area .sfMid 0 5 10
        = (1/2 : ℚ) * (_get_sf_mid_ild_ordinate 0 10 + -(1/2)) * (5 - 0) := by
  norm_num [_calculate_ild_area, IldFunc.ordinate, _get_sf_mid_ild_ordinate, eps,
    max_def, min_def]

/-- Claim C5: for every valid beam (L > 0) and two-point load with
W1 + W2 > 0, analyze returns Ra_max = W1 + W2·max(0, L−x)/L,
Rb_max = (W1·max(0, L−x) + W2·L)/L, SF_max = max(Ra_max, Rb_max), and
y_SF_max = 0 when Ra_max ≥ Rb_max, else L. -/
theorem c5_point_reactions_shear (L w1 w2 x : ℚ) (_hL : 0 < L) (_hw1 : 0 ≤ w1)
    (_hw2 : 0 ≤ w2) (_hx : 0 ≤ x) (htot : 0 < w1 + w2) :
    (analyze_beam ⟨L, "simply_supported"⟩ (.point ⟨w1, w2, x⟩)).Ra_max
      = w1 + w2 * max 0 (L - x) / L ∧
    (analyze_beam ⟨L, "simply_supported"⟩ (.point ⟨w1, w2, x⟩)).Rb_max
      = (w1 * max 0 (L - x) + w2 * L) / L ∧
    (analyze_beam ⟨L, "simply_supported"⟩ (.point ⟨w1, w2, x⟩)).SF_max
      = max (w1 + w2 * max 0 (L - x) / L) ((w1 * max 0 (L - x) + w2 * L) / L) ∧
    (analyze_beam ⟨L, "simply_supported"⟩ (.point ⟨w1, w2, x⟩)).y_SF_max
      = (if w1 + w2 * max 0 (L - x) / L ≥ (w1 * max 0 (L - x) + w2 * L) / L
          then 0 else L) := by
  have hne : ¬ (w1 + w2 = 0) := by intro h; rw [h] at htot; exact lt_irrefl 0 htot
  unfold analyze_beam _analyze_simply_supported_point
  simp [hne]

/-- Instantiation witness for `c5_point_reactions_shear`. -/
theorem c5_point_reactions_shear_witness :
    (analyze_beam ⟨10, "simply_supported"⟩ (.point ⟨50, 30, 12⟩)).Ra_max
      = 50 + 30 * max 0 (10 - 12) / 10 ∧
    (analyze_beam ⟨10, "simply_supported"⟩ (.point ⟨50, 30, 12⟩)).Rb_max
      = (50 * max 0 (10 - 12) + 30 * 10) / 10 ∧
    (analyze_beam ⟨10, "simply_supported"⟩ (.point ⟨50, 30, 12⟩)).SF_max
      = max (50 + 30 * max 0 (10 - 12) / 10) ((50 * max 0 (10 - 12) + 30 * 10) / 10) ∧
    (analyze_beam ⟨10, "simply_supported"⟩ (.point ⟨50, 30, 12⟩)).y_SF_max
      = (if (50 : ℚ) + 30 * max 0 (10 - 12) / 10 ≥ (50 * max 0 (10 - 12) + 30 * 10) / 10
          then 0 else 10) :=
  c5_point_reactions_shear 10 50 30 12 (by norm_num) (by norm_num) (by norm_num)
    (by norm_num) (by norm_num)

/-- Claim C4: for every valid beam (L > 0) and UDL with w > 0 and patch
length L_udl > 0, analyze returns BM_max = w·L²/8 at z_BM_max = L/2 when
L_udl ≥ L, and BM_max = (w·L_udl/8)·(2L−L_udl) at z_BM_max = L/2 when
L_udl < L. -/
theorem c4_udl_bm_max (L w lu : ℚ) (_hL : 0 < L) (hw : 0 < w) (_hlu : 0 < lu) :
    (lu ≥ L →
      (analyze_beam ⟨L, "simply_supported"⟩ (.udl ⟨w, lu⟩)).BM_max = w * L ^ 2 / 8 ∧
      (analyze_beam ⟨L, "simply_supported"⟩ (.udl ⟨w, lu⟩)).z_BM_max = L / 2) ∧
    (lu < L →
      (analyze_beam ⟨L, "simply_supported"⟩ (.udl ⟨w, lu⟩)).BM_max
        = (w * lu / 8) * (2 * L - lu) ∧
      (analyze_beam ⟨L, "simply_supported"⟩ (.udl ⟨w, lu⟩)).z_BM_max = L / 2) := by
  have hne : w ≠ 0 := ne_of_gt hw
  unfold analyze_beam _analyze_simply_supported_udl
  constructor
  · intro hge
    simp [hne, hge]
  · intro hlt
    have hnge : ¬ (lu ≥ L) := not_le.mpr hlt
    simp [hne, hnge]

/-- Instantiation witness for `c4_udl_bm_max`. -/
theorem c4_udl_bm_max_witness :
    ((12 : ℚ) ≥ 10 →
      (analyze_beam ⟨10, "simply_supported"⟩ (.udl ⟨5, 12⟩)).BM_max = 5 * 10 ^ 2 / 8 ∧
      (analyze_beam ⟨10, "simply_supported"⟩ (.udl ⟨5, 12⟩)).z_BM_max = 10 / 2) ∧
    ((12 : ℚ) < 10 →
      (analyze_beam ⟨10, "simply_supported"⟩ (.udl ⟨5, 12⟩)).BM_max
        = (5 * 12 / 8) * (2 * 10 - 12) ∧
      (analyze_beam ⟨10, "simply_supported"⟩ (.udl ⟨5, 12⟩)).z_BM_max = 10 / 2) :=
  c4_udl_bm_max 10 5 12 (by norm_num) (by norm_num) (by norm_num)

/-- Claim C6: the four influence-line ordinate functions return
(L−p)/L and p/L for the two reactions on 0 ≤ p ≤ L; −p/L for
0 ≤ p < L/2 and (L−p)/L for L/2 ≤ p ≤ L for the midspan shear;
p·(L/2)/L for 0 ≤ p ≤ L/2 and (L−p)·(L/2)/L for L/2 < p ≤ L for the
midspan moment; and 0 whenever p lies outside [0, L] or L ≤ 0. -/
theorem c6_ild_ordinates (p L : ℚ) :
    (0 < L → 0 ≤ p → p ≤ L →
      _get_ra_ild_ordinate p L = (L - p) / L ∧
      _get_rb_ild_ordinate p L = p / L) ∧
    (0 < L → 0 ≤ p → p < L / 2 → _get_sf_mid_ild_ordinate p L = -p / L) ∧
    (0 < L → L / 2 ≤ p → p ≤ L → _get_sf_mid_ild_ordinate p L = (L - p) / L) ∧
    (0 < L → 0 ≤ p → p ≤ L / 2 →
      _get_bm_mid_ild_ordinate p L = p * (L / 2) / L) ∧
    (0 < L → L / 2 < p → p ≤ L →
      _get_bm_mid_ild_ordinate p L = (L - p) * (L / 2) / L) ∧
    (¬ (0 ≤ p ∧ p ≤ L) ∨ L ≤ 0 →
      _get_ra_ild_ordinate p L = 0 ∧ _get_rb_ild_ordinate p L = 0 ∧
      _get_sf_mid_ild_ordinate p L = 0 ∧ _get_bm_mid_ild_ordinate p L = 0) := by
  unfold _get_ra_ild_ordinate _get_rb_ild_ordinate _get_sf_mid_ild_ordinate
    _get_bm_mid_ild_ordinate
  refine ⟨?_, ?_, ?_, ?_, ?_, ?_⟩
  · intro hL h0 hpL
    exact ⟨by rw [if_pos ⟨h0, hpL, hL⟩], by rw [if_pos ⟨h0, hpL, hL⟩]⟩
  · intro hL h0 hlt
    rw [if_pos ⟨h0, hlt, hL⟩]
  · intro hL hge hpL
    rw [if_neg (by rintro ⟨_, h2, _⟩; linarith), if_pos ⟨hge, hpL, hL⟩]
  · intro hL h0 hle
    rw [if_pos ⟨h0, hle, hL⟩]
  · intro hL hgt hpL
    rw [if_neg (by rintro ⟨_, h2, _⟩; linarith), if_pos ⟨hgt, hpL, hL⟩]
  · intro h
    have hfail : ∀ a b : ℚ, ¬ (a ≤ p ∧ p ≤ b ∧ 0 < L) ∨ True := fun _ _ => Or.inr trivial
    rcases h with hout | hL0
    · rcases not_and_or.mp hout with hp0 | hpL
      · push_neg at hp0
        refine ⟨by rw [if_neg (by rintro ⟨h1, _, _⟩; linarith)],
                by rw [if_neg (by rintro ⟨h1, _, _⟩; linarith)],
                by rw [if_neg (by rintro ⟨h1, _, _⟩; linarith),
                       if_neg (by rintro ⟨h1, _, h3⟩; linarith)],
                by rw [if_neg (by rintro ⟨h1, _, _⟩; linarith),
                       if_neg (by rintro ⟨h1, _, h3⟩; linarith)]⟩
      · push_neg at hpL
        refine ⟨by rw [if_neg (by rintro ⟨_, h2, _⟩; linarith)],
                by rw [if_neg (by rintro ⟨_, h2, _⟩; linarith)],
                by rw [if_neg (by rintro ⟨_, h2, h3⟩; linarith),
                       if_neg (by rintro ⟨_, h2, _⟩; linarith)],
                by rw [if_neg (by rintro ⟨_, h2, h3⟩; linarith),
                       if_neg (by rintro ⟨_, h2, _⟩; linarith)]⟩
    · refine ⟨by rw [if_neg (by rintro ⟨_, _, h3⟩; linarith)],
              by rw [if_neg (by rintro ⟨_, _, h3⟩; linarith)],
              by rw [if_neg (by rintro ⟨_, _, h3⟩; linarith),
                     if_neg (by rintro ⟨_, _, h3⟩; linarith)],
              by rw [if_neg (by rintro ⟨_, _, h3⟩; linarith),
                     if_neg (by rintro ⟨_, _, h3⟩; linarith)]⟩

/-- Instantiation witness for `c6_ild_ordinates`. -/
theorem c6_ild_ordinates_witness :
    _get_ra_ild_ordinate 3 10 = (10 - 3) / 10 ∧
    _get_rb_ild_ordinate 3 10 = 3 / 10 ∧
    _get_sf_mid_ild_ordinate 3 10 = -3 / 10 ∧
    _get_bm_mid_ild_ordinate 3 10 = 3 * (10 / 2) / 10 ∧
    _get_ra_ild_ordinate 11 10 = 0 := by
  have h := c6_ild_ordinates 3 10
  have h2 := c6_ild_ordinates 11 10
  refine ⟨(h.1 (by norm_num) (by norm_num) (by norm_num)).1,
          (h.1 (by norm_num) (by norm_num) (by norm_num)).2,
          h.2.1 (by norm_num) (by norm_num) (by norm_num),
          h.2.2.2.1 (by norm_num) (by norm_num) (by norm_num),
          (h2.2.2.2.2.2 (Or.inl (by norm_num))).1⟩

/-- Claim C7 as amended: degenerate intervals (start ≥ end, L ≤ 0, or empty
after clipping to [0, L]) integrate to 0; and for the midspan-shear ordinate
the area over an interval straddling L/2 is the sum of two independent
trapezoids split exactly at L/2, each using the ordinate sampled 1e-9 inside
its own side of the discontinuity — the sampled values are
-1/2 + 1e-9/L from the left and 1/2 - 1e-9/L from the right (not exactly
∓1/2 as the claim states), so no trapezoid bridges the jump. -/
theorem c7_sf_area_split (f : IldFunc) (s e L : ℚ) :
    ((s ≥ e ∨ L ≤ 0) → _calculate_ild_area f s e L = 0) ∧
    (max 0 s ≥ min L e → _calculate_ild_area f s e L = 0) ∧
    (0 < L → 0 ≤ s → e ≤ L → s < L / 2 → L / 2 < e →
      _calculate_ild_area .sfMid s e L =
        (1/2 : ℚ) * (_get_sf_mid_ild_ordinate s L
            + _get_sf_mid_ild_ordinate (L / 2 - eps) L) * (L / 2 - s)
        + (1/2 : ℚ) * (_get_sf_mid_ild_ordinate (L / 2 + eps) L
            + _get_sf_mid_ild_ordinate e L) * (e - L / 2)) ∧
    (0 < L → eps < L / 2 →
      _get_sf_mid_ild_ordinate (L / 2 - eps) L = -(1/2 : ℚ) + eps / L ∧
      _get_sf_mid_ild_ordinate (L / 2 + eps) L = (1/2 : ℚ) - eps / L) := by
  refine ⟨?_, ?_, ?_, ?_⟩
  · intro h
    unfold _calculate_ild_area
    rw [if_pos h]
  · intro h
    unfold _calculate_ild_area
    by_cases h0 : s ≥ e ∨ L ≤ 0
    · rw [if_pos h0]
    · rw [if_neg h0]
      simp only [if_pos h]
  · intro hL hs he hsm hme
    have hse : s < e := hsm.trans hme
    have h1 : ¬ (s ≥ e ∨ L ≤ 0) := by push_neg; exact ⟨hse, hL⟩
    have h2 : max 0 s = s := max_eq_right hs
    have h3 : min L e = e := min_eq_right he
    have h4 : ¬ (s ≥ e) := not_le.mpr hse
    have h5 : min e (L / 2) = L / 2 := min_eq_right hme.le
    have h6 : max s (L / 2) = L / 2 := max_eq_right hsm.le
    unfold _calculate_ild_area IldFunc.ordinate
    rw [if_neg h1]
    simp only [h2, h3, h5, h6]
    rw [if_neg h4, if_pos hsm, if_pos hme]
  · intro hL heps
    have hepspos : (0:ℚ) < eps := by norm_num [eps]
    constructor
    · unfold _get_sf_mid_ild_ordinate
      rw [if_pos ⟨by linarith, by linarith, hL⟩]
      field_simp
      ring
    · unfold _get_sf_mid_ild_ordinate
      rw [if_neg (by rintro ⟨_, h2, _⟩; linarith),
          if_pos ⟨by linarith, by linarith, hL⟩]
      field_simp
      ring

/-- Instantiation witness for `c7_sf_area_split`. -/
theorem c7_sf_area_split_witness :
    _calculate_ild_area .ra 5 3 10 = 0 ∧
    _calculate_ild_area .rb (-4) (-2) 10 = 0 ∧
    _calculate_ild_area .sfMid 2 8 10 =
      (1/2 : ℚ) * (_get_sf_mid_ild_ordinate 2 10
          + _get_sf_mid_ild_ordinate (10 / 2 - eps) 10) * (10 / 2 - 2)
      + (1/2 : ℚ) * (_get_sf_mid_ild_ordinate (10 / 2 + eps) 10
          + _get_sf_mid_ild_ordinate 8 10) * (8 - 10 / 2) ∧
    _get_sf_mid_ild_ordinate (10 / 2 - eps) 10 = -(1/2 : ℚ) + eps / 10 ∧
    _get_sf_mid_ild_ordinate (10 / 2 + eps) 10 = (1/2 : ℚ) - eps / 10 := by
  have ha := (c7_sf_area_split .ra 5 3 10).1 (Or.inl (by norm_num))
  have hb := (c7_sf_area_split .rb (-4) (-2) 10).2.1 (by norm_num [max_def, min_def])
  have hc := (c7_sf_area_split .sfMid 2 8 10).2.2.1 (by norm_num) (by norm_num)
    (by norm_num) (by norm_num) (by norm_num)
  have hd := (c7_sf_area_split .sfMid 2 8 10).2.2.2 (by norm_num)
    (by norm_num [eps])
  exact ⟨ha, hb, hc, hd.1, hd.2⟩

/-- Trapezoidal area of the midspan-moment influence line over the full
span equals L²/8 exactly (the ordinate is piecewise linear, so the two
trapezoids split at L/2 are exact). -/
lemma bm_area_full (L : ℚ) (hL : 0 < L) :
    _calculate_ild_area .bmMid 0 L L = L ^ 2 / 8 := by
  have hne : L ≠ 0 := ne_of_gt hL
  have h1 : ¬ ((0:ℚ) ≥ L ∨ L ≤ 0) := by push_neg; exact ⟨hL, hL⟩
  have h2 : max (0:ℚ) 0 = 0 := max_self 0
  have h3 : min L L = L := min_self L
  have h4 : ¬ ((0:ℚ) ≥ L) := not_le.mpr hL
  have h5 : min L (L / 2) = L / 2 := min_eq_right (by linarith)
  have h6 : max (0:ℚ) (L / 2) = L / 2 := max_eq_right (by linarith)
  have h7 : (0:ℚ) ≤ L / 2 := by linarith
  unfold _calculate_ild_area IldFunc.ordinate _get_bm_mid_ild_ordinate
  rw [if_neg h1]
  simp only [h2, h3, h5, h6]
  rw [if_neg h4, if_pos h7, if_pos (show (0:ℚ) ≤ 0 ∧ (0:ℚ) ≤ L / 2 ∧ 0 < L from
        ⟨le_refl 0, h7, hL⟩),
      if_pos (show 0 ≤ L / 2 ∧ L / 2 ≤ L / 2 ∧ 0 < L from ⟨h7, le_refl _, hL⟩),
      if_pos (show L / 2 < L from by linarith),
      if_neg (show ¬ (0 ≤ L ∧ L ≤ L / 2 ∧ 0 < L) from by rintro ⟨_, h, _⟩; linarith),
      if_pos (show L / 2 < L ∧ L ≤ L ∧ 0 < L from ⟨by linarith, le_refl _, hL⟩)]
  field_simp
  ring

/-- Trapezoidal area of the midspan-moment influence line over a patch of
length u centered on midspan equals u(2L−u)/8 exactly. -/
lemma bm_area_centered (L u : ℚ) (hL : 0 < L) (hu : 0 < u) (hul : u < L) :
    _calculate_ild_area .bmMid (L / 2 - u / 2) (L / 2 + u / 2) L
      = u * (2 * L - u) / 8 := by
  have hne : L ≠ 0 := ne_of_gt hL
  have hs0 : (0:ℚ) ≤ L / 2 - u / 2 := by linarith
  have hse : L / 2 - u / 2 < L / 2 + u / 2 := by linarith
  have heL : L / 2 + u / 2 ≤ L := by linarith
  have h1 : ¬ (L / 2 - u / 2 ≥ L / 2 + u / 2 ∨ L ≤ 0) := by
    push_neg; exact ⟨hse, hL⟩
  have h2 : max 0 (L / 2 - u / 2) = L / 2 - u / 2 := max_eq_right hs0
  have h3 : min L (L / 2 + u / 2) = L / 2 + u / 2 := min_eq_right heL
  have h4 : ¬ (L / 2 - u / 2 ≥ L / 2 + u / 2) := not_le.mpr hse
  have h5 : min (L / 2 + u / 2) (L / 2) = L / 2 := min_eq_right (by linarith)
  have h6 : max (L / 2 - u / 2) (L / 2) = L / 2 := max_eq_right (by linarith)
  have h7 : (0:ℚ) ≤ L / 2 := by linarith
  unfold _calculate_ild_area IldFunc.ordinate _get_bm_mid_ild_ordinate
  rw [if_neg h1]
  simp only [h2, h3, h5, h6]
  rw [if_neg h4, if_pos (show L / 2 - u / 2 ≤ L / 2 from by linarith),
      if_pos (show 0 ≤ L / 2 - u / 2 ∧ L / 2 - u / 2 ≤ L / 2 ∧ 0 < L from
        ⟨hs0, by linarith, hL⟩),
      if_pos (show 0 ≤ L / 2 ∧ L / 2 ≤ L / 2 ∧ 0 < L from ⟨h7, le_refl _, hL⟩),
      if_pos (show L / 2 < L / 2 + u / 2 from by linarith),
      if_neg (show ¬ (0 ≤ L / 2 + u / 2 ∧ L / 2 + u / 2 ≤ L / 2 ∧ 0 < L) from
        by rintro ⟨_, h, _⟩; linarith),
      if_pos (show L / 2 < L / 2 + u / 2 ∧ L / 2 + u / 2 ≤ L ∧ 0 < L from
        ⟨by linarith, heL, hL⟩)]
  field_simp
  ring

/-- Claim C10: the trapezoidally integrated midspan-moment field
max_pos_M_mid coincides exactly with the closed-form absolute maximum
BM_max: w·L²/8 when L_udl ≥ L and (w·L_udl/8)·(2L−L_udl) when L_udl < L. -/
theorem c10_m_mid_matches_bm_max (L w u : ℚ) (hL : 0 < L) (hw : 0 < w)
    (hu : 0 < u) :
    (analyze_beam ⟨L, "simply_supported"⟩ (.udl ⟨w, u⟩)).max_pos_M_mid
      = some ((analyze_beam ⟨L, "simply_supported"⟩ (.udl ⟨w, u⟩)).BM_max) ∧
    (u ≥ L →
      (analyze_beam ⟨L, "simply_supported"⟩ (.udl ⟨w, u⟩)).max_pos_M_mid
        = some (w * L ^ 2 / 8)) ∧
    (u < L →
      (analyze_beam ⟨L, "simply_supported"⟩ (.udl ⟨w, u⟩)).max_pos_M_mid
        = some ((w * u / 8) * (2 * L - u))) := by
  have hwne : w ≠ 0 := ne_of_gt hw
  have hab : analyze_beam ⟨L, "simply_supported"⟩ (.udl ⟨w, u⟩)
      = _analyze_simply_supported_udl ⟨L, "simply_supported"⟩ ⟨w, u⟩ := rfl
  rw [hab]
  by_cases hge : L ≤ u
  · have harea := bm_area_full L hL
    simp only [_analyze_simply_supported_udl, if_neg hwne, if_pos hge, if_pos hL,
      harea, Option.some.injEq]
    exact ⟨by ring, fun _ => by ring, fun hlt => absurd hge (not_le.mpr hlt)⟩
  · have hlt : u < L := lt_of_not_le hge
    have harea := bm_area_centered L u hL hu hlt
    have hst : max 0 (L / 2 - u / 2) = L / 2 - u / 2 :=
      max_eq_right (by linarith)
    have hen : min L (L / 2 + u / 2) = L / 2 + u / 2 :=
      min_eq_right (by linarith)
    have hlt' : L / 2 - u / 2 < L / 2 + u / 2 := by linarith
    simp only [_analyze_simply_supported_udl, if_neg hwne, if_neg hge, hst, hen,
      if_pos hlt', harea, Option.some.injEq]
    exact ⟨by ring, fun hge2 => absurd hge2 hge, fun _ => by ring⟩

/-- Instantiation witness for `c10_m_mid_matches_bm_max`. -/
theorem c10_m_mid_matches_bm_max_witness :
    (analyze_beam ⟨10, "simply_supported"⟩ (.udl ⟨8, 4⟩)).max_pos_M_mid
      = some ((analyze_beam ⟨10, "simply_supported"⟩ (.udl ⟨8, 4⟩)).BM_max) ∧
    ((4:ℚ) ≥ 10 →
      (analyze_beam ⟨10, "simply_supported"⟩ (.udl ⟨8, 4⟩)).max_pos_M_mid
        = some (8 * 10 ^ 2 / 8)) ∧
    ((4:ℚ) < 10 →
      (analyze_beam ⟨10, "simply_supported"⟩ (.udl ⟨8, 4⟩)).max_pos_M_mid
        = some ((8 * 4 / 8) * (2 * 10 - 4))) :=
  c10_m_mid_matches_bm_max 10 8 4 (by norm_num) (by norm_num) (by norm_num)

/-- Value of a floating-point result field: a rational number or the
not-a-number condition. -/
inductive FVal where
  | num (q : ℚ)
  | nan
  deriving DecidableEq

/-- The not-a-number test on a numeric field. -/
def FVal.isNaN : FVal → Bool
  | .nan => true
  | .num _ => false

/-- The not-a-number test lifted to optional fields; a Python `None` field
holds no number and is skipped. -/
def optIsNaN : Option FVal → Bool
  | some v => v.isNaN
  | none => false

/-- Result record as computed by either analysis branch, before the
post-calculation validity guard, with float-valued (`FVal`) fields; same
layout and defaults as `AnalysisResults`. -/
structure RawResults where
  load_type : String := "unknown"
  Ra_max : FVal := .num 0
  Rb_max : FVal := .num 0
  SF_max : FVal := .num 0
  y_SF_max : FVal := .num 0
  BM_01 : Option FVal := some (.num 0)
  SF_01 : Option FVal := some (.num 0)
  max_pos_M_mid : Option FVal := some (.num 0)
  max_pos_SF_mid : Option FVal := some (.num 0)
  max_neg_SF_mid : Option FVal := some (.num 0)
  BM_max : FVal := .num 0
  z_BM_max : FVal := .num 0
  error : Option String := none
  deriving DecidableEq

/-- Whether any numeric field of a raw result is not-a-number. -/
def anyNaN (r : RawResults) : Bool :=
  r.Ra_max.isNaN || r.Rb_max.isNaN || r.SF_max.isNaN || r.y_SF_max.isNaN ||
  optIsNaN r.BM_01 || optIsNaN r.SF_01 || optIsNaN r.max_pos_M_mid ||
  optIsNaN r.max_pos_SF_mid || optIsNaN r.max_neg_SF_mid ||
  r.BM_max.isNaN || r.z_BM_max.isNaN

/-- Whether the named numeric field of a raw result is not-a-number. -/
def fieldIsNaN (r : RawResults) : String → Bool
  | "Ra_max" => r.Ra_max.isNaN
  | "Rb_max" => r.Rb_max.isNaN
  | "SF_max" => r.SF_max.isNaN
  | "y_SF_max" => r.y_SF_max.isNaN
  | "BM_01" => optIsNaN r.BM_01
  | "SF_01" => optIsNaN r.SF_01
  | "max_pos_M_mid" => optIsNaN r.max_pos_M_mid
  | "max_pos_SF_mid" => optIsNaN r.max_pos_SF_mid
  | "max_neg_SF_mid" => optIsNaN r.max_neg_SF_mid
  | "BM_max" => r.BM_max.isNaN
  | "z_BM_max" => r.z_BM_max.isNaN
  | _ => false

/-- Modelled from the spec: the post-calculation numeric-degeneracy check of
spec section 4.6 is not part of the calculation functions in this source
revision (the spec attributes it to the other repository revision), so the
check is modelled from the spec text: every numeric output field is tested
for the not-a-number condition in field order, and the name of the first
offending field is reported. -/
def firstNaNField (r : RawResults) : Option String :=
  if r.Ra_max.isNaN then some "Ra_max"
  else if r.Rb_max.isNaN then some "Rb_max"
  else if r.SF_max.isNaN then some "SF_max"
  else if r.y_SF_max.isNaN then some "y_SF_max"
  else if optIsNaN r.BM_01 then some "BM_01"
  else if optIsNaN r.SF_01 then some "SF_01"
  else if optIsNaN r.max_pos_M_mid then some "max_pos_M_mid"
  else if optIsNaN r.max_pos_SF_mid then some "max_pos_SF_mid"
  else if optIsNaN r.max_neg_SF_mid then some "max_neg_SF_mid"
  else if r.BM_max.isNaN then some "BM_max"
  else if r.z_BM_max.isNaN then some "z_BM_max"
  else none

/-- Modelled from the spec: if any numeric field is not-a-number the whole
result collapses to an error-only record carrying the text "Calculation
resulted in NaN for <field>." and no partial numeric results; otherwise the
result passes through unchanged. -/
def nanGuard (r : RawResults) : RawResults :=
  match firstNaNField r with
  | some f => { error := some ("Calculation resulted in NaN for " ++ f ++ ".") }
  | none => r

/-- Claim C1: whenever any numeric field of a computed result is
not-a-number, the guarded result consists solely of an error field reading
"Calculation resulted in NaN for <field>." that names an offending (NaN)
field, every other field holding only its fresh default — no partial
numeric result survives.  The guard itself is modelled from spec section
4.6, as it is absent from this source revision. -/
theorem c1_nan_collapse (r : RawResults) (h : anyNaN r = true) :
    ∃ f, fieldIsNaN r f = true ∧
      nanGuard r =
        { error := some ("Calculation resulted in NaN for " ++ f ++ ".") } := by
  unfold nanGuard firstNaNField
  by_cases h1 : r.Ra_max.isNaN = true
  · exact ⟨"Ra_max", h1, by rw [if_pos h1]⟩
  by_cases h2 : r.Rb_max.isNaN = true
  · exact ⟨"Rb_max", h2, by rw [if_neg h1, if_pos h2]⟩
  by_cases h3 : r.SF_max.isNaN = true
  · exact ⟨"SF_max", h3, by rw [if_neg h1, if_neg h2, if_pos h3]⟩
  by_cases h4 : r.y_SF_max.isNaN = true
  · exact ⟨"y_SF_max", h4, by rw [if_neg h1, if_neg h2, if_neg h3, if_pos h4]⟩
  by_cases h5 : optIsNaN r.BM_01 = true
  · exact ⟨"BM_01", h5, by rw [if_neg h1, if_neg h2, if_neg h3, if_neg h4, if_pos h5]⟩
  by_cases h6 : optIsNaN r.SF_01 = true
  · exact ⟨"SF_01", h6,
      by rw [if_neg h1, if_neg h2, if_neg h3, if_neg h4, if_neg h5, if_pos h6]⟩
  by_cases h7 : optIsNaN r.max_pos_M_mid = true
  · exact ⟨"max_pos_M_mid", h7,
      by rw [if_neg h1, if_neg h2, if_neg h3, if_neg h4, if_neg h5, if_neg h6,
        if_pos h7]⟩
  by_cases h8 : optIsNaN r.max_pos_SF_mid = true
  · exact ⟨"max_pos_SF_mid", h8,
      by rw [if_neg h1, if_neg h2, if_neg h3, if_neg h4, if_neg h5, if_neg h6,
        if_neg h7, if_pos h8]⟩
  by_cases h9 : optIsNaN r.max_neg_SF_mid = true
  · exact ⟨"max_neg_SF_mid", h9,
      by rw [if_neg h1, if_neg h2, if_neg h3, if_neg h4, if_neg h5, if_neg h6,
        if_neg h7, if_neg h8, if_pos h9]⟩
  by_cases h10 : r.BM_max.isNaN = true
  · exact ⟨"BM_max", h10,
      by rw [if_neg h1, if_neg h2, if_neg h3, if_neg h4, if_neg h5, if_neg h6,
        if_neg h7, if_neg h8, if_neg h9, if_pos h10]⟩
  by_cases h11 : r.z_BM_max.isNaN = true
  · exact ⟨"z_BM_max", h11,
      by rw [if_neg h1, if_neg h2, if_neg h3, if_neg h4, if_neg h5, if_neg h6,
        if_neg h7, if_neg h8, if_neg h9, if_neg h10, if_pos h11]⟩
  exfalso
  unfold anyNaN at h
  rw [Bool.not_eq_true] at h1 h2 h3 h4 h5 h6 h7 h8 h9 h10 h11
  rw [h1, h2, h3, h4, h5, h6, h7, h8, h9, h10, h11] at h
  simp at h

/-- Instantiation witness for `c1_nan_collapse`. -/
theorem c1_nan_collapse_witness :
    ∃ f, fieldIsNaN { Rb_max := FVal.nan } f = true ∧
      nanGuard { Rb_max := FVal.nan } =
        { error := some ("Calculation resulted in NaN for " ++ f ++ ".") } :=
  c1_nan_collapse { Rb_max := FVal.nan } rfl

end BeamAnalysis
